import Mathlib

/-!
The process entry point `main` of cloud-livekit-bridge

A shallow embedding of `cloud/packages/cloud-livekit-bridge/main.go`.

`main` is straight-line code with two error checks.  It is embedded as a
small-step machine: a state holds the program point (named after the line of
`main.go` that is about to run, together with the local variables live there),
the two heap objects `main` creates (the gRPC server and the health server),
the log sink and the trace of effects performed so far.  Everything `main`
cannot decide itself (the value returned by `loadConfig`, the outcome of
`net.Listen`, the outcome of `grpcServer.Serve`) is read from an environment.
-/

namespace LiveKitBridge

/-! ## Values -/

/-- Modelled from the spec: the configuration type and `loadConfig` are declared outside
`main.go`; the loader "produces an immutable configuration value with at least a listening
port and a backend URL".  `main` reads exactly the fields `Port` and `LiveKitURL`, both
formatted with `%s`, and concatenates `Port` to a string, so both are strings. -/
structure Config where
  Port : String
  LiveKitURL : String
deriving DecidableEq, Repr

/-- A non-nil Go `error`, represented by the text that `%v` prints for it. -/
structure GoError where
  text : String
deriving DecidableEq, Repr

/-- The listener handed back by a successful `net.Listen(network, address)`. -/
structure Listener where
  network : String
  address : String
deriving DecidableEq, Repr

/-- Modelled from the spec: `NewLiveKitBridgeService` is declared outside `main.go`; the
spec says only that the bridge service is instantiated "with the configuration". -/
structure BridgeService where
  config : Config
deriving DecidableEq, Repr

/-- The enumeration `grpc_health_v1.HealthCheckResponse_ServingStatus`. -/
inductive ServingStatus where
  | UNKNOWN
  | SERVING
  | NOT_SERVING
  | SERVICE_UNKNOWN
deriving DecidableEq, Repr

/-- The two `grpc.ServerOption`s that `main` passes to `grpc.NewServer`. -/
inductive ServerOption where
  | MaxRecvMsgSize (n : Nat)
  | MaxSendMsgSize (n : Nat)
deriving DecidableEq, Repr

/-- The registrations that `main` makes on the gRPC server, one per registration call:
`pb.RegisterLiveKitBridgeServer`, `grpc_health_v1.RegisterHealthServer` and
`reflection.Register`.  The names under which a call enters the registry (one call may
enter more than one name) are the library's and are not modelled. -/
inductive Service where
  | LiveKitBridge
  | Health
  | Reflection
deriving DecidableEq, Repr

/-- The part of a `*grpc.Server` that `main` touches: the two server-wide message size
limits and the registrations made on it.  The list keeps the registrations in the order
of the calls; the registry of the library has no order, and only membership in
`services` is meant. -/
structure GrpcServer where
  maxRecvMsgSize : Nat
  maxSendMsgSize : Nat
  services : List Service
deriving DecidableEq, Repr

/-- The part of a `*health.Server` that `main` touches: the map from service name to
serving status (`none`: the name has no entry). -/
structure HealthServer where
  statusMap : String → Option ServingStatus

/-- What a call of `grpcServer.Serve(lis)` does: it blocks for the rest of the process
lifetime, or it returns an `error` value.  The type `error` has the value nil (`none`),
which line 49 tests for; the library returns nil only after `Stop` or `GracefulStop`. -/
inductive ServeResult where
  | blocks
  | returns (err : Option GoError)
deriving DecidableEq, Repr

/-- Everything outside `main` that decides how a run goes. -/
structure Env where
  /-- the value returned by `loadConfig()` -/
  loadConfig : Config
  /-- the error returned by `net.Listen(network, address)`; `none` is nil (bound) -/
  netListen : String → String → Option GoError
  /-- the outcome of `grpcServer.Serve(lis)` -/
  serve : Listener → ServeResult

/-! ## Library operations used by `main` -/

/-- The name under which `main` reports health (line 34). -/
def bridgeServiceName : String := "mentra.livekit.bridge.LiveKitBridge"

/-- A server before any option is applied (grpc-go defaults: 4 MiB receive limit,
`math.MaxInt32` send limit, no service registered). -/
def GrpcServer.default : GrpcServer :=
  { maxRecvMsgSize := 1024 * 1024 * 4, maxSendMsgSize := 2147483647, services := [] }

/-- Applying one server option. -/
def ServerOption.apply (srv : GrpcServer) : ServerOption → GrpcServer
  | .MaxRecvMsgSize n => { srv with maxRecvMsgSize := n }
  | .MaxSendMsgSize n => { srv with maxSendMsgSize := n }

/-- The call `grpc.NewServer(opts...)`: the options are applied in order to the default server. -/
def grpcNewServer (opts : List ServerOption) : GrpcServer :=
  opts.foldl ServerOption.apply GrpcServer.default

/-- Registering a service on a server (`RegisterLiveKitBridgeServer`, `RegisterHealthServer`,
`reflection.Register`): the service joins the registry, the limits are untouched. -/
def GrpcServer.register (srv : GrpcServer) (svc : Service) : GrpcServer :=
  { srv with services := srv.services ++ [svc] }

/-- The call `health.NewServer()`: the map starts with the overall-server entry `""` at SERVING. -/
def healthNewServer : HealthServer :=
  { statusMap := fun name => if name = "" then some ServingStatus.SERVING else none }

/-- The call `healthServer.SetServingStatus(service, status)`: one entry is written. -/
def HealthServer.SetServingStatus (h : HealthServer) (service : String)
    (status : ServingStatus) : HealthServer :=
  { statusMap := fun name => if name = service then some status else h.statusMap name }

/-- Modelled from the spec: the transport rule of the RPC library for an inbound message,
"requests/responses exceeding this are rejected by the transport layer": a message is
rejected exactly when its size exceeds the limit. -/
def GrpcServer.rejectsRecv (srv : GrpcServer) (size : Nat) : Bool :=
  decide (size > srv.maxRecvMsgSize)

/-- Modelled from the spec: the same transport rule for an outbound message. -/
def GrpcServer.rejectsSend (srv : GrpcServer) (size : Nat) : Bool :=
  decide (size > srv.maxSendMsgSize)

/-- Whether a reflection query names a registration: the listing is served once
`reflection.Register` has run, and it names every registration made on the server.  The
order of the listing and the names in it are the library's and are not modelled. -/
def GrpcServer.reflectionLists (srv : GrpcServer) (svc : Service) : Bool :=
  decide (Service.Reflection ∈ srv.services) && decide (svc ∈ srv.services)

/-! ## Log lines -/

/-- Line 19: `"Configuration loaded: Port=%s, LiveKitURL=%s"`. -/
def fmtConfigLoaded (config : Config) : String :=
  "Configuration loaded: Port=" ++ config.Port ++ ", LiveKitURL=" ++ config.LiveKitURL

/-- Line 42: `"Failed to listen on port %s: %v"`. -/
def fmtListenFailed (config : Config) (err : GoError) : String :=
  "Failed to listen on port " ++ config.Port ++ ": " ++ err.text

/-- Line 45: `"✅ LiveKit gRPC Bridge listening on port %s"`. -/
def fmtListening (config : Config) : String :=
  "✅ LiveKit gRPC Bridge listening on port " ++ config.Port

/-- Line 50: `"Failed to serve: %v"`. -/
def fmtServeFailed (err : GoError) : String :=
  "Failed to serve: " ++ err.text

/-! ## Effects, program points, states -/

/-- The externally visible actions of `main`, one per call it makes. -/
inductive Effect where
  | logPrintln (line : String)
  | logPrintf (line : String)
  | logFatalf (line : String)
  | loadConfig
  | grpcNewServer (opts : List ServerOption)
  | NewLiveKitBridgeService (config : Config)
  | RegisterLiveKitBridgeServer (svc : BridgeService)
  | healthNewServer
  | RegisterHealthServer
  | SetServingStatus (service : String) (status : ServingStatus)
  | reflectionRegister
  | netListen (network address : String)
  | Serve (lis : Listener)
deriving DecidableEq, Repr

/-- Program points of `main`: `lN` is "about to run line N of main.go", carrying the local
variables that are still read from there on.  `serving` is the process blocked inside
`Serve`, `exited` the terminated process with its exit status. -/
inductive Loc where
  | l15
  | l18
  | l19 (config : Config)
  | l22 (config : Config)
  | l28 (config : Config)
  | l29 (config : Config) (bridgeService : BridgeService)
  | l32 (config : Config)
  | l33 (config : Config)
  | l34 (config : Config)
  | l37 (config : Config)
  | l40 (config : Config)
  | l42 (config : Config) (err : GoError)
  | l45 (config : Config) (lis : Listener)
  | l46 (lis : Listener)
  | l49 (lis : Listener)
  | l50 (err : GoError)
  | l52
  | serving (lis : Listener)
  | exited (status : Nat)
deriving DecidableEq, Repr

/-- A state of the process. -/
structure State where
  loc : Loc
  grpcServer : Option GrpcServer
  healthServer : Option HealthServer
  log : List String
  trace : List Effect

/-- The process at the entry of `main`. -/
def State.start : State :=
  { loc := .l15, grpcServer := none, healthServer := none, log := [], trace := [] }

/-- Recording an effect and moving to the next program point. -/
def State.goto (s : State) (e : Effect) (next : Loc) : State :=
  { s with trace := s.trace ++ [e], loc := next }

/-- Writing a line to the log sink. -/
def State.write (s : State) (line : String) : State :=
  { s with log := s.log ++ [line] }

/-- The size limit written on lines 23 and 24. -/
def maxMsgSize : Nat := 1024 * 1024 * 10

/-- One step of `main`: the statement at the current program point runs.  `log.Fatalf`
writes its line and exits with status 1; falling off the end of `main` (line 52) exits
with status 0; a process blocked inside `Serve` or terminated makes no further step. -/
def step (env : Env) (s : State) : State :=
  match s.loc with
  | .l15 =>
      let line := "Starting LiveKit gRPC Bridge..."
      (s.write line).goto (.logPrintln line) .l18
  | .l18 =>
      s.goto .loadConfig (.l19 env.loadConfig)
  | .l19 config =>
      let line := fmtConfigLoaded config
      (s.write line).goto (.logPrintf line) (.l22 config)
  | .l22 config =>
      let opts :=
        [ServerOption.MaxRecvMsgSize maxMsgSize, ServerOption.MaxSendMsgSize maxMsgSize]
      { s with grpcServer := some (grpcNewServer opts) }.goto (.grpcNewServer opts) (.l28 config)
  | .l28 config =>
      s.goto (.NewLiveKitBridgeService config) (.l29 config { config := config })
  | .l29 config bridgeService =>
      { s with
        grpcServer := s.grpcServer.map (fun (srv : GrpcServer) => srv.register .LiveKitBridge)
      }.goto (.RegisterLiveKitBridgeServer bridgeService) (.l32 config)
  | .l32 config =>
      { s with healthServer := some healthNewServer }.goto .healthNewServer (.l33 config)
  | .l33 config =>
      { s with
        grpcServer := s.grpcServer.map (fun (srv : GrpcServer) => srv.register .Health)
      }.goto .RegisterHealthServer (.l34 config)
  | .l34 config =>
      { s with
        healthServer := s.healthServer.map
          (fun (h : HealthServer) => h.SetServingStatus bridgeServiceName .SERVING)
      }.goto (.SetServingStatus bridgeServiceName .SERVING) (.l37 config)
  | .l37 config =>
      { s with
        grpcServer := s.grpcServer.map (fun (srv : GrpcServer) => srv.register .Reflection)
      }.goto .reflectionRegister (.l40 config)
  | .l40 config =>
      let network := "tcp"
      let address := ":" ++ config.Port
      match env.netListen network address with
      | some err => s.goto (.netListen network address) (.l42 config err)
      | none => s.goto (.netListen network address) (.l45 config ⟨network, address⟩)
  | .l42 config err =>
      let line := fmtListenFailed config err
      (s.write line).goto (.logFatalf line) (.exited 1)
  | .l45 config lis =>
      let line := fmtListening config
      (s.write line).goto (.logPrintf line) (.l46 lis)
  | .l46 lis =>
      let line := "Ready to accept connections..."
      (s.write line).goto (.logPrintln line) (.l49 lis)
  | .l49 lis =>
      match env.serve lis with
      | .blocks => s.goto (.Serve lis) (.serving lis)
      | .returns (some err) => s.goto (.Serve lis) (.l50 err)
      | .returns none => s.goto (.Serve lis) .l52
  | .l50 err =>
      let line := fmtServeFailed err
      (s.write line).goto (.logFatalf line) (.exited 1)
  | .l52 => { s with loc := .exited 0 }
  | .serving _ => s
  | .exited _ => s

/-- The state after `n` steps of `main`. -/
def runFor (env : Env) : Nat → State
  | 0 => State.start
  | n + 1 => step env (runFor env n)

/-- The process has terminated. -/
def State.terminated (s : State) : Bool :=
  match s.loc with
  | .exited _ => true
  | _ => false

/-- The process makes no further step of `main`: terminated, or blocked inside `Serve`. -/
def State.halted (s : State) : Bool :=
  match s.loc with
  | .exited _ => true
  | .serving _ => true
  | _ => false

/-- The status the health server records for a service name (`none`: no health server
yet, or no entry for the name). -/
def State.healthStatus (s : State) (service : String) : Option ServingStatus :=
  s.healthServer.bind (fun (h : HealthServer) => h.statusMap service)

/-! ## Observations on traces -/

/-- The effect is a call of `net.Listen`. -/
def Effect.isListen : Effect → Bool
  | .netListen _ _ => true
  | _ => false

/-- The effect is a call of `grpcServer.Serve`. -/
def Effect.isServe : Effect → Bool
  | .Serve _ => true
  | _ => false

/-- The effect is a call of `log.Fatalf`. -/
def Effect.isFatal : Effect → Bool
  | .logFatalf _ => true
  | _ => false

/-- The effect is a write to the health-status map. -/
def Effect.isSetServingStatus : Effect → Bool
  | .SetServingStatus _ _ => true
  | _ => false

/-- The effect is a construction of the gRPC server. -/
def Effect.isNewServer : Effect → Bool
  | .grpcNewServer _ => true
  | _ => false

/-- The effect only writes a line to the log sink and goes on. -/
def Effect.isLog : Effect → Bool
  | .logPrintln _ => true
  | .logPrintf _ => true
  | _ => false

/-- Every effect of the trace that satisfies `p` has the effect `a` somewhere before it. -/
def precededBy (a : Effect) (p : Effect → Bool) : List Effect → Bool
  | [] => true
  | e :: es => !p e && (decide (e = a) || precededBy a p es)

/-- The startup sequence as the specification lists it, for a configuration `config`:
load the configuration, construct the server with the size limits, construct the bridge
service from the configuration and register it, construct the health service, register
it and set the bridge name to SERVING, register reflection, bind the listener on the
configured port, call `Serve` on that listener. -/
def specStartupSequence (config : Config) : List Effect :=
  [ .loadConfig,
    .grpcNewServer [.MaxRecvMsgSize 10485760, .MaxSendMsgSize 10485760],
    .NewLiveKitBridgeService config,
    .RegisterLiveKitBridgeServer { config := config },
    .healthNewServer,
    .RegisterHealthServer,
    .SetServingStatus "mentra.livekit.bridge.LiveKitBridge" .SERVING,
    .reflectionRegister,
    .netListen "tcp" (":" ++ config.Port),
    .Serve { network := "tcp", address := ":" ++ config.Port } ]

/-! ## Sample environments -/

/-- A configuration with port 8080. -/
def sampleConfig : Config := { Port := "8080", LiveKitURL := "wss://example.test" }

/-- The port is free and `Serve` blocks for ever. -/
def envServing : Env :=
  { loadConfig := sampleConfig, netListen := fun _ _ => none, serve := fun _ => .blocks }

/-- The port is already bound by another listener. -/
def envPortInUse : Env :=
  { loadConfig := sampleConfig
    netListen := fun _ _ => some ⟨"listen tcp :8080: bind: address already in use"⟩
    serve := fun _ => .blocks }

/-- The port is free and `Serve` returns a non-nil error. -/
def envServeFails : Env :=
  { loadConfig := sampleConfig
    netListen := fun _ _ => none
    serve := fun _ => .returns (some ⟨"use of closed network connection"⟩) }

/-- The configured port is empty. -/
def envEmptyPort : Env :=
  { loadConfig := { Port := "", LiveKitURL := "" }
    netListen := fun _ _ => none
    serve := fun _ => .blocks }

end LiveKitBridge

namespace LiveKitBridge

/-! ## The run of `main` -/

theorem step_of_halted (env : Env) (s : State) (h : s.halted = true) : step env s = s := by
  unfold State.halted at h
  unfold step
  split at h <;> simp_all

theorem runFor_add_of_halted (env : Env) (k : Nat) (h : (runFor env k).halted = true) (n : Nat) :
    runFor env (k + n) = runFor env k := by
  induction n with
  | zero => rfl
  | succ n ih =>
    show step env (runFor env (k + n)) = runFor env k
    rw [ih, step_of_halted env _ h]

theorem halted_at_15 (env : Env) : (runFor env 15).halted = true := by
  rcases hl : env.netListen "tcp" (":" ++ env.loadConfig.Port) with _ | err
  · rcases hs : env.serve ⟨"tcp", ":" ++ env.loadConfig.Port⟩ with _ | (_ | err) <;>
      simp [runFor, step, State.goto, State.write, State.start, State.halted, hl, hs]
  · simp [runFor, step, State.goto, State.write, State.start, State.halted, hl]

theorem runFor_min (env : Env) (n : Nat) : runFor env n = runFor env (min n 15) := by
  by_cases hn : n ≤ 15
  · rw [min_eq_left hn]
  · obtain ⟨k, rfl⟩ : ∃ k, n = 15 + k := ⟨n - 15, by omega⟩
    rw [min_eq_right (by omega)]
    exact runFor_add_of_halted env 15 (halted_at_15 env) k

theorem runFor_capped (env : Env) (n : Nat) : ∃ m, m ≤ 15 ∧ runFor env n = runFor env m :=
  ⟨min n 15, min_le_right _ _, runFor_min env n⟩

theorem mem_of_precededBy (a : Effect) (p : Effect → Bool) (tr : List Effect)
    (h : precededBy a p tr = true) (pre : List Effect) (e : Effect) (post : List Effect)
    (hsplit : tr = pre ++ e :: post) (hp : p e = true) : a ∈ pre := by
  induction tr generalizing pre with
  | nil => simp at hsplit
  | cons x xs ih =>
    simp only [precededBy, Bool.and_eq_true, Bool.not_eq_true', Bool.or_eq_true,
      decide_eq_true_eq] at h
    cases pre with
    | nil =>
      simp only [List.nil_append, List.cons.injEq] at hsplit
      rw [← hsplit.1, h.1] at hp
      exact absurd hp (by simp)
    | cons y ys =>
      simp only [List.cons_append, List.cons.injEq] at hsplit
      rcases h.2 with hxa | hrest
      · rw [← hsplit.1, hxa]
        exact List.mem_cons_self _ _
      · exact List.mem_cons_of_mem _ (ih hrest ys hsplit.2)

theorem step_trace_grows (env : Env) (s : State) :
    ∃ es, (step env s).trace = s.trace ++ es := by
  unfold step
  split <;> first
    | exact ⟨_, rfl⟩
    | ((try dsimp only); split <;> exact ⟨_, rfl⟩)
    | exact ⟨[], (List.append_nil _).symm⟩

theorem runFor_trace_grows (env : Env) (n k : Nat) :
    ∃ es, (runFor env (n + k)).trace = (runFor env n).trace ++ es := by
  induction k with
  | zero => exact ⟨[], by simp⟩
  | succ k ih =>
    obtain ⟨es, hes⟩ := ih
    obtain ⟨fs, hfs⟩ := step_trace_grows env (runFor env (n + k))
    refine ⟨es ++ fs, ?_⟩
    show (step env (runFor env (n + k))).trace = _
    rw [hfs, hes, List.append_assoc]

theorem split_in_final_trace (env : Env) (n : Nat) (pre : List Effect) (e : Effect)
    (post : List Effect) (h : (runFor env n).trace = pre ++ e :: post) :
    ∃ rest, (runFor env 15).trace = pre ++ e :: rest := by
  obtain ⟨es, hes⟩ := runFor_trace_grows env n 15
  have hfin : runFor env (n + 15) = runFor env 15 := by
    rw [runFor_min env (n + 15), min_eq_right (by omega)]
  rw [hfin, h] at hes
  exact ⟨post ++ es, by simp [hes]⟩

theorem precededBy_in_run (env : Env) (a : Effect) (p : Effect → Bool)
    (hfinal : precededBy a p (runFor env 15).trace = true) (n : Nat)
    (pre : List Effect) (e : Effect) (post : List Effect)
    (h : (runFor env n).trace = pre ++ e :: post) (hp : p e = true) : a ∈ pre := by
  obtain ⟨rest, hrest⟩ := split_in_final_trace env n pre e post h
  exact mem_of_precededBy a p _ hfinal pre e rest hrest hp

theorem healthStatus_bridge_iff (env : Env) (n : Nat) :
    (runFor env n).healthStatus bridgeServiceName = some .SERVING ↔ 9 ≤ n := by
  rw [runFor_min env n]
  have h1 : min n 15 ≤ 15 := min_le_right _ _
  have h2 : 9 ≤ n ↔ 9 ≤ min n 15 := by simp
  rw [h2]
  generalize min n 15 = m at h1
  rcases hl : env.netListen "tcp" (":" ++ env.loadConfig.Port) with _ | err
  · rcases hs : env.serve ⟨"tcp", ":" ++ env.loadConfig.Port⟩ with _ | (_ | err) <;>
      interval_cases m <;>
      simp [runFor, step, State.goto, State.write, State.start, State.healthStatus,
        HealthServer.SetServingStatus, healthNewServer, bridgeServiceName, hl, hs]
  · interval_cases m <;>
      simp [runFor, step, State.goto, State.write, State.start, State.healthStatus,
        HealthServer.SetServingStatus, healthNewServer, bridgeServiceName, hl]

/-- C1: in every run of `main`, every call of `net.Listen` and every call of
`grpcServer.Serve` in the effect trace has `SetServingStatus(bridge name, SERVING)` before
it, and in every state that is about to bind, about to call `Serve`, blocked inside `Serve`
or past a `Serve` call, the health map holds SERVING for the bridge name. -/
theorem serving_set_before_listen_and_serve (env : Env) (n : Nat) :
    (∀ pre e post, (runFor env n).trace = pre ++ e :: post →
        (e.isListen = true ∨ e.isServe = true) →
        Effect.SetServingStatus bridgeServiceName .SERVING ∈ pre) ∧
    ((∃ config, (runFor env n).loc = .l40 config) ∨
      (∃ lis, (runFor env n).loc = .l49 lis ∨ (runFor env n).loc = .serving lis ∨
        Effect.Serve lis ∈ (runFor env n).trace) →
      (runFor env n).healthStatus bridgeServiceName = some .SERVING) := by
  obtain ⟨m, hm, hrun⟩ := runFor_capped env n
  rw [hrun]
  clear hrun n
  constructor
  · intro pre e post hsplit hp
    refine precededBy_in_run env _ (fun e => e.isListen || e.isServe) ?_ m pre e post hsplit
      (by simpa using hp)
    rcases hl : env.netListen "tcp" (":" ++ env.loadConfig.Port) with _ | err
    · rcases hs : env.serve ⟨"tcp", ":" ++ env.loadConfig.Port⟩ with _ | (_ | err) <;>
        simp [runFor, step, State.goto, State.write, State.start, precededBy, Effect.isListen,
          Effect.isServe, hl, hs]
    · simp [runFor, step, State.goto, State.write, State.start, precededBy, Effect.isListen,
        Effect.isServe, hl]
  · rcases hl : env.netListen "tcp" (":" ++ env.loadConfig.Port) with _ | err
    · rcases hs : env.serve ⟨"tcp", ":" ++ env.loadConfig.Port⟩ with _ | (_ | err) <;>
        interval_cases m <;>
        simp [runFor, step, State.goto, State.write, State.start, State.healthStatus,
          HealthServer.SetServingStatus, hl, hs]
    · interval_cases m <;>
        simp [runFor, step, State.goto, State.write, State.start, State.healthStatus,
          HealthServer.SetServingStatus, hl]

/-- C1 at a sample run: the port is free and `Serve` blocks; after 14 steps `Serve` has
been called and the bridge name is SERVING. -/
theorem serving_set_before_listen_and_serve_witness :
    Effect.Serve ⟨"tcp", ":8080"⟩ ∈ (runFor envServing 14).trace ∧
    (runFor envServing 14).healthStatus bridgeServiceName = some .SERVING :=
  ⟨by decide,
   (serving_set_before_listen_and_serve envServing 14).2
     (Or.inr ⟨⟨"tcp", ":8080"⟩, Or.inr (Or.inr (by decide))⟩)⟩

/-- C2: in every run of `main` the gRPC server is constructed at most once (exactly once
from step 4 on), with the two options `MaxRecvMsgSize` and `MaxSendMsgSize`, both
`1024*1024*10 = 10485760`; from its construction on the server carries these two limits,
whatever is registered on it afterwards, so that it accepts a message of 10485760 bytes
and rejects one of 10485761 bytes in either direction. -/
theorem message_size_limits (env : Env) (n : Nat) :
    maxMsgSize = 10485760 ∧
    (∀ opts, Effect.grpcNewServer opts ∈ (runFor env n).trace →
      opts = [ServerOption.MaxRecvMsgSize 10485760, ServerOption.MaxSendMsgSize 10485760]) ∧
    (runFor env n).trace.countP Effect.isNewServer ≤ 1 ∧
    (4 ≤ n → (runFor env n).trace.countP Effect.isNewServer = 1 ∧
      (runFor env n).grpcServer.isSome = true) ∧
    (∀ srv, (runFor env n).grpcServer = some srv →
      srv.maxRecvMsgSize = 10485760 ∧ srv.maxSendMsgSize = 10485760 ∧
      srv.rejectsRecv 10485760 = false ∧ srv.rejectsRecv 10485761 = true ∧
      srv.rejectsSend 10485760 = false ∧ srv.rejectsSend 10485761 = true) := by
  rw [runFor_min env n]
  have h1 : min n 15 ≤ 15 := min_le_right _ _
  have h2 : 4 ≤ n → 4 ≤ min n 15 := fun h => le_min h (by norm_num)
  generalize min n 15 = m at h1 h2
  refine ⟨by decide, ?_, ?_, ?_, ?_⟩
  · rcases hl : env.netListen "tcp" (":" ++ env.loadConfig.Port) with _ | err
    · rcases hs : env.serve ⟨"tcp", ":" ++ env.loadConfig.Port⟩ with _ | (_ | err) <;>
        interval_cases m <;>
        simp [runFor, step, State.goto, State.write, State.start, maxMsgSize, hl, hs]
    · interval_cases m <;>
        simp [runFor, step, State.goto, State.write, State.start, maxMsgSize, hl]
  · rcases hl : env.netListen "tcp" (":" ++ env.loadConfig.Port) with _ | err
    · rcases hs : env.serve ⟨"tcp", ":" ++ env.loadConfig.Port⟩ with _ | (_ | err) <;>
        interval_cases m <;>
        simp [runFor, step, State.goto, State.write, State.start, Effect.isNewServer, hl, hs]
    · interval_cases m <;>
        simp [runFor, step, State.goto, State.write, State.start, Effect.isNewServer, hl]
  · intro h4
    have h4m := h2 h4
    rcases hl : env.netListen "tcp" (":" ++ env.loadConfig.Port) with _ | err
    · rcases hs : env.serve ⟨"tcp", ":" ++ env.loadConfig.Port⟩ with _ | (_ | err) <;>
        interval_cases m <;>
        simp [runFor, step, State.goto, State.write, State.start, Effect.isNewServer, hl, hs]
    · interval_cases m <;>
        simp [runFor, step, State.goto, State.write, State.start, Effect.isNewServer, hl]
  · rcases hl : env.netListen "tcp" (":" ++ env.loadConfig.Port) with _ | err
    · rcases hs : env.serve ⟨"tcp", ":" ++ env.loadConfig.Port⟩ with _ | (_ | err) <;>
        interval_cases m <;>
        simp [runFor, step, State.goto, State.write, State.start, maxMsgSize, grpcNewServer,
          ServerOption.apply, GrpcServer.default, GrpcServer.register, GrpcServer.rejectsRecv,
          GrpcServer.rejectsSend, hl, hs]
    · interval_cases m <;>
        simp [runFor, step, State.goto, State.write, State.start, maxMsgSize, grpcNewServer,
          ServerOption.apply, GrpcServer.default, GrpcServer.register, GrpcServer.rejectsRecv,
          GrpcServer.rejectsSend, hl]

/-- C2 at a sample run: the server that is serving has both limits at 10485760. -/
theorem message_size_limits_witness :
    (runFor envServing 14).grpcServer =
      some ⟨10485760, 10485760, [.LiveKitBridge, .Health, .Reflection]⟩ ∧
    (10485760 = 10485760 ∧ 10485760 = 10485760 ∧
      GrpcServer.rejectsRecv ⟨10485760, 10485760, [.LiveKitBridge, .Health, .Reflection]⟩
        10485760 = false ∧
      GrpcServer.rejectsRecv ⟨10485760, 10485760, [.LiveKitBridge, .Health, .Reflection]⟩
        10485761 = true ∧
      GrpcServer.rejectsSend ⟨10485760, 10485760, [.LiveKitBridge, .Health, .Reflection]⟩
        10485760 = false ∧
      GrpcServer.rejectsSend ⟨10485760, 10485760, [.LiveKitBridge, .Health, .Reflection]⟩
        10485761 = true) :=
  ⟨by decide,
   (message_size_limits envServing 14).2.2.2.2
     ⟨10485760, 10485760, [.LiveKitBridge, .Health, .Reflection]⟩ (by decide)⟩

/-- C3: if `net.Listen` returns an error, the run reaches termination after 12 steps with
exit status 1 (non-zero); the last action is `log.Fatalf` with the line
`"Failed to listen on port <Port>: <err>"`, which contains the configured port and the
text of the error; the trace holds exactly one call of `net.Listen`, and in no state of
the run more than one, and never a call of `Serve`. -/
theorem bind_failure_is_fatal (env : Env) (err : GoError)
    (hl : env.netListen "tcp" (":" ++ env.loadConfig.Port) = some err) :
    (∀ n, 12 ≤ n →
      (∃ status, (runFor env n).loc = .exited status ∧ status ≠ 0) ∧
      (runFor env n).trace.getLast? =
        some (Effect.logFatalf (fmtListenFailed env.loadConfig err)) ∧
      (runFor env n).log.getLast? = some (fmtListenFailed env.loadConfig err) ∧
      (runFor env n).trace.countP Effect.isFatal = 1 ∧
      (runFor env n).trace.countP Effect.isListen = 1) ∧
    (∀ n, (runFor env n).trace.countP Effect.isListen ≤ 1 ∧
      (runFor env n).trace.countP Effect.isServe = 0 ∧
      (n < 12 → (runFor env n).terminated = false)) ∧
    env.loadConfig.Port.data <:+: (fmtListenFailed env.loadConfig err).data ∧
    err.text.data <:+: (fmtListenFailed env.loadConfig err).data := by
  refine ⟨?_, ?_, ?_, ?_⟩
  · intro n hn
    rw [runFor_min env n]
    have h1 : min n 15 ≤ 15 := min_le_right _ _
    have h2 : 12 ≤ min n 15 := le_min hn (by norm_num)
    generalize min n 15 = m at h1 h2
    interval_cases m <;>
      simp [runFor, step, State.goto, State.write, State.start, Effect.isFatal,
        Effect.isListen, hl]
  · intro n
    rw [runFor_min env n]
    have h1 : min n 15 ≤ 15 := min_le_right _ _
    have h2 : n < 12 → min n 15 < 12 := fun h => lt_of_le_of_lt (min_le_left _ _) h
    generalize min n 15 = m at h1 h2
    refine ⟨?_, ?_, ?_⟩
    · interval_cases m <;>
        simp [runFor, step, State.goto, State.write, State.start, Effect.isListen, hl]
    · interval_cases m <;>
        simp [runFor, step, State.goto, State.write, State.start, Effect.isServe, hl]
    · intro h
      have hm := h2 h
      interval_cases m <;>
        simp [runFor, step, State.goto, State.write, State.start, State.terminated, hl]
  · exact ⟨"Failed to listen on port ".data, (": " ++ err.text).data, by
      simp [fmtListenFailed, String.data_append]⟩
  · exact ⟨("Failed to listen on port " ++ env.loadConfig.Port ++ ": ").data, [], by
      simp [fmtListenFailed, String.data_append]⟩

/-- C3 at a sample run: the port is already in use. -/
theorem bind_failure_is_fatal_witness :
    envPortInUse.netListen "tcp" (":" ++ envPortInUse.loadConfig.Port) =
      some ⟨"listen tcp :8080: bind: address already in use"⟩ ∧
    (runFor envPortInUse 12).loc = .exited 1 ∧
    (runFor envPortInUse 12).trace.countP Effect.isServe = 0 :=
  ⟨rfl, by decide,
   ((bind_failure_is_fatal envPortInUse
      ⟨"listen tcp :8080: bind: address already in use"⟩ rfl).2.1 12).2.1⟩

/-- C4: if the port is bound and `Serve` returns a non-nil error, the run reaches
termination after 15 steps with exit status 1 (non-zero); the last action is `log.Fatalf`
with the line `"Failed to serve: <err>"`, which contains the text of the error; the trace
then holds exactly one `log.Fatalf`, one `net.Listen` and one `Serve`, and in no state of
the run more than one of each. -/
theorem serve_failure_is_fatal (env : Env) (err : GoError)
    (hl : env.netListen "tcp" (":" ++ env.loadConfig.Port) = none)
    (hs : env.serve ⟨"tcp", ":" ++ env.loadConfig.Port⟩ = .returns (some err)) :
    (∀ n, 15 ≤ n →
      (∃ status, (runFor env n).loc = .exited status ∧ status ≠ 0) ∧
      (runFor env n).trace.getLast? = some (Effect.logFatalf (fmtServeFailed err)) ∧
      (runFor env n).log.getLast? = some (fmtServeFailed err) ∧
      (runFor env n).trace.countP Effect.isFatal = 1 ∧
      (runFor env n).trace.countP Effect.isListen = 1 ∧
      (runFor env n).trace.countP Effect.isServe = 1) ∧
    (∀ n, (runFor env n).trace.countP Effect.isFatal ≤ 1 ∧
      (runFor env n).trace.countP Effect.isListen ≤ 1 ∧
      (runFor env n).trace.countP Effect.isServe ≤ 1 ∧
      (n < 15 → (runFor env n).terminated = false)) ∧
    err.text.data <:+: (fmtServeFailed err).data := by
  refine ⟨?_, ?_, ?_⟩
  · intro n hn
    rw [runFor_min env n, min_eq_right hn]
    simp [runFor, step, State.goto, State.write, State.start, Effect.isFatal,
      Effect.isListen, Effect.isServe, hl, hs]
  · intro n
    rw [runFor_min env n]
    have h1 : min n 15 ≤ 15 := min_le_right _ _
    have h2 : n < 15 → min n 15 < 15 := fun h => lt_of_le_of_lt (min_le_left _ _) h
    generalize min n 15 = m at h1 h2
    refine ⟨?_, ?_, ?_, ?_⟩
    · interval_cases m <;>
        simp [runFor, step, State.goto, State.write, State.start, Effect.isFatal, hl, hs]
    · interval_cases m <;>
        simp [runFor, step, State.goto, State.write, State.start, Effect.isListen, hl, hs]
    · interval_cases m <;>
        simp [runFor, step, State.goto, State.write, State.start, Effect.isServe, hl, hs]
    · intro h
      have hm := h2 h
      interval_cases m <;>
        simp [runFor, step, State.goto, State.write, State.start, State.terminated, hl, hs]
  · exact ⟨"Failed to serve: ".data, [], by simp [fmtServeFailed, String.data_append]⟩

/-- C4 at a sample run: the listener is closed under the serving process. -/
theorem serve_failure_is_fatal_witness :
    envServeFails.netListen "tcp" (":" ++ envServeFails.loadConfig.Port) = none ∧
    envServeFails.serve ⟨"tcp", ":" ++ envServeFails.loadConfig.Port⟩ =
      .returns (some ⟨"use of closed network connection"⟩) ∧
    (runFor envServeFails 15).trace.countP Effect.isFatal = 1 :=
  ⟨rfl, rfl,
   ((serve_failure_is_fatal envServeFails ⟨"use of closed network connection"⟩ rfl rfl).1
      15 (le_refl _)).2.2.2.1⟩

/-- C5, as stated, fails: with the port already in use the run terminates with status 1,
yet from the ninth step on (line 34 runs before line 40) the health server records
SERVING for the bridge name. -/
theorem bind_failure_still_records_serving :
    envPortInUse.netListen "tcp" (":" ++ envPortInUse.loadConfig.Port) ≠ none ∧
    (runFor envPortInUse 12).loc = .exited 1 ∧
    ¬ (∀ n, (runFor envPortInUse n).healthStatus bridgeServiceName ≠ some .SERVING) :=
  ⟨by decide, by decide, fun h => h 9 (by decide)⟩

/-- C5, amended: in a run where binding the port fails, `Serve` is never called and the
process is never about to serve nor serving, so no health query is ever answered; the
run terminates with status 1; the status recorded for the bridge name is SERVING exactly
from the ninth step (the `SetServingStatus` of line 34) on. -/
theorem bind_failure_never_serves (env : Env) (err : GoError)
    (hl : env.netListen "tcp" (":" ++ env.loadConfig.Port) = some err) (n : Nat) :
    (runFor env n).trace.countP Effect.isServe = 0 ∧
    (∀ lis, (runFor env n).loc ≠ .l49 lis ∧ (runFor env n).loc ≠ .serving lis) ∧
    (12 ≤ n → (runFor env n).loc = .exited 1) ∧
    ((runFor env n).healthStatus bridgeServiceName = some .SERVING ↔ 9 ≤ n) := by
  refine ⟨?_, ?_, ?_, healthStatus_bridge_iff env n⟩
  · obtain ⟨m, hm, hrun⟩ := runFor_capped env n
    rw [hrun]
    interval_cases m <;>
      simp [runFor, step, State.goto, State.write, State.start, Effect.isServe, hl]
  · obtain ⟨m, hm, hrun⟩ := runFor_capped env n
    rw [hrun]
    interval_cases m <;>
      simp [runFor, step, State.goto, State.write, State.start, hl]
  · intro hn
    rw [runFor_min env n]
    have h1 : min n 15 ≤ 15 := min_le_right _ _
    have h2 : 12 ≤ min n 15 := le_min hn (by norm_num)
    generalize min n 15 = m at h1 h2
    interval_cases m <;>
      simp [runFor, step, State.goto, State.write, State.start, hl]

/-- C5, amended, at a sample run: the port is already in use. -/
theorem bind_failure_never_serves_witness :
    envPortInUse.netListen "tcp" (":" ++ envPortInUse.loadConfig.Port) =
      some ⟨"listen tcp :8080: bind: address already in use"⟩ ∧
    (runFor envPortInUse 12).trace.countP Effect.isServe = 0 ∧
    (runFor envPortInUse 12).loc = .exited 1 :=
  ⟨rfl,
   (bind_failure_never_serves envPortInUse
      ⟨"listen tcp :8080: bind: address already in use"⟩ rfl 12).1,
   (bind_failure_never_serves envPortInUse
      ⟨"listen tcp :8080: bind: address already in use"⟩ rfl 12).2.2.1 (le_refl _)⟩

/-- C6: `Serve` of grpc-go returns a non-nil error unless `Stop` or `GracefulStop` is
called, and `main` calls neither and hands the server only to the three registration
calls, so the call of line 49 does not return nil.  Then no state of a run is at the end
of `main` (line 52) or exited with status 0, and a run that has terminated has a non-zero
status, exactly one `log.Fatalf`, which is its last action and wrote the last log line,
and it is the one of the bind error (line 42) or the one of the serve-loop error
(line 50). -/
theorem only_fatal_exits (env : Env)
    (hserve : env.serve ⟨"tcp", ":" ++ env.loadConfig.Port⟩ ≠ ServeResult.returns none)
    (n : Nat) :
    (runFor env n).loc ≠ .l52 ∧
    (runFor env n).loc ≠ .exited 0 ∧
    ((runFor env n).terminated = true →
      (∃ status, (runFor env n).loc = .exited status ∧ status ≠ 0) ∧
      (runFor env n).trace.countP Effect.isFatal = 1 ∧
      ((∃ err, env.netListen "tcp" (":" ++ env.loadConfig.Port) = some err ∧
          (runFor env n).trace.getLast? =
            some (Effect.logFatalf (fmtListenFailed env.loadConfig err)) ∧
          (runFor env n).log.getLast? = some (fmtListenFailed env.loadConfig err)) ∨
        (∃ err, env.netListen "tcp" (":" ++ env.loadConfig.Port) = none ∧
          env.serve ⟨"tcp", ":" ++ env.loadConfig.Port⟩ = .returns (some err) ∧
          (runFor env n).trace.getLast? = some (Effect.logFatalf (fmtServeFailed err)) ∧
          (runFor env n).log.getLast? = some (fmtServeFailed err)))) := by
  obtain ⟨m, hm, hrun⟩ := runFor_capped env n
  rw [hrun]
  clear hrun n
  rcases hl : env.netListen "tcp" (":" ++ env.loadConfig.Port) with _ | err
  · rcases hs : env.serve ⟨"tcp", ":" ++ env.loadConfig.Port⟩ with _ | (_ | err)
    · interval_cases m <;>
        simp [runFor, step, State.goto, State.write, State.start, State.terminated,
          Effect.isFatal, hl, hs]
    · exact absurd hs hserve
    · interval_cases m <;>
        simp [runFor, step, State.goto, State.write, State.start, State.terminated,
          Effect.isFatal, hl, hs]
  · interval_cases m <;>
      simp [runFor, step, State.goto, State.write, State.start, State.terminated,
        Effect.isFatal, hl]

/-- C6 at a sample run: the listener is closed under the serving process; the run has
terminated after 15 steps, not with status 0, and with one `log.Fatalf`. -/
theorem only_fatal_exits_witness :
    envServeFails.serve ⟨"tcp", ":" ++ envServeFails.loadConfig.Port⟩ ≠
      ServeResult.returns none ∧
    (runFor envServeFails 15).terminated = true ∧
    (runFor envServeFails 15).loc ≠ .exited 0 ∧
    (runFor envServeFails 15).trace.countP Effect.isFatal = 1 :=
  ⟨by decide, by decide,
   (only_fatal_exits envServeFails (by decide) 15).2.1,
   ((only_fatal_exits envServeFails (by decide) 15).2.2 (by decide)).2.1⟩

/-- C7: when binding succeeds, the effect trace of `main` after 14 steps, the last of
which is the call of `Serve`, is exactly the sequence below; apart from the four log
lines it is the startup sequence of the specification, each step once and in that order;
the trace after `n ≤ 14` steps is the first `n` effects of it, and every later trace
starts with it. -/
theorem startup_sequence (env : Env)
    (hl : env.netListen "tcp" (":" ++ env.loadConfig.Port) = none) :
    (runFor env 14).trace =
      [ .logPrintln "Starting LiveKit gRPC Bridge...",
        .loadConfig,
        .logPrintf (fmtConfigLoaded env.loadConfig),
        .grpcNewServer [.MaxRecvMsgSize 10485760, .MaxSendMsgSize 10485760],
        .NewLiveKitBridgeService env.loadConfig,
        .RegisterLiveKitBridgeServer { config := env.loadConfig },
        .healthNewServer,
        .RegisterHealthServer,
        .SetServingStatus bridgeServiceName .SERVING,
        .reflectionRegister,
        .netListen "tcp" (":" ++ env.loadConfig.Port),
        .logPrintf (fmtListening env.loadConfig),
        .logPrintln "Ready to accept connections...",
        .Serve { network := "tcp", address := ":" ++ env.loadConfig.Port } ] ∧
    (runFor env 14).trace.filter (fun e => !e.isLog) = specStartupSequence env.loadConfig ∧
    (∀ n, n ≤ 14 → (runFor env n).trace = (runFor env 14).trace.take n) ∧
    (∀ n, 14 ≤ n → (runFor env n).trace.take 14 = (runFor env 14).trace) := by
  refine ⟨?_, ?_, ?_, ?_⟩
  · rcases hs : env.serve ⟨"tcp", ":" ++ env.loadConfig.Port⟩ with _ | (_ | err) <;>
      simp [runFor, step, State.goto, State.write, State.start, maxMsgSize, hl, hs]
  · rcases hs : env.serve ⟨"tcp", ":" ++ env.loadConfig.Port⟩ with _ | (_ | err) <;>
      simp [runFor, step, State.goto, State.write, State.start, maxMsgSize, Effect.isLog,
        specStartupSequence, bridgeServiceName, hl, hs]
  · intro n hn
    rcases hs : env.serve ⟨"tcp", ":" ++ env.loadConfig.Port⟩ with _ | (_ | err) <;>
      interval_cases n <;>
      simp [runFor, step, State.goto, State.write, State.start, hl, hs]
  · intro n hn
    rw [runFor_min env n]
    have h1 : min n 15 ≤ 15 := min_le_right _ _
    have h2 : 14 ≤ min n 15 := le_min hn (by norm_num)
    generalize min n 15 = m at h1 h2
    rcases hs : env.serve ⟨"tcp", ":" ++ env.loadConfig.Port⟩ with _ | (_ | err) <;>
      interval_cases m <;>
      simp [runFor, step, State.goto, State.write, State.start, hl, hs]

/-- C7 at a sample run: the port is free and `Serve` blocks. -/
theorem startup_sequence_witness :
    envServing.netListen "tcp" (":" ++ envServing.loadConfig.Port) = none ∧
    (runFor envServing 14).trace.filter (fun e => !e.isLog) =
      specStartupSequence envServing.loadConfig :=
  ⟨rfl, (startup_sequence envServing rfl).2.1⟩

/-- C8: for every configuration, whatever its port string, every call of `net.Listen` in
a run of `main` has network `"tcp"` and the address `":"` followed by the configured
port, unchanged; there is at most one such call, and exactly one from step 11 on. -/
theorem listen_address (env : Env) (n : Nat) :
    (∀ network address, Effect.netListen network address ∈ (runFor env n).trace →
      network = "tcp" ∧ address = ":" ++ env.loadConfig.Port ∧
      address.data = ':' :: env.loadConfig.Port.data) ∧
    (runFor env n).trace.countP Effect.isListen ≤ 1 ∧
    (11 ≤ n → (runFor env n).trace.countP Effect.isListen = 1 ∧
      Effect.netListen "tcp" (":" ++ env.loadConfig.Port) ∈ (runFor env n).trace) := by
  rw [runFor_min env n]
  have h1 : min n 15 ≤ 15 := min_le_right _ _
  have h2 : 11 ≤ n → 11 ≤ min n 15 := fun h => le_min h (by norm_num)
  generalize min n 15 = m at h1 h2
  refine ⟨?_, ?_, ?_⟩
  · intro network address hmem
    have key : network = "tcp" ∧ address = ":" ++ env.loadConfig.Port := by
      revert hmem
      rcases hl : env.netListen "tcp" (":" ++ env.loadConfig.Port) with _ | err
      · rcases hs : env.serve ⟨"tcp", ":" ++ env.loadConfig.Port⟩ with _ | (_ | err) <;>
          interval_cases m <;>
          simp [runFor, step, State.goto, State.write, State.start, hl, hs]
      · interval_cases m <;>
          simp [runFor, step, State.goto, State.write, State.start, hl]
    refine ⟨key.1, key.2, ?_⟩
    rw [key.2, String.data_append]
    rfl
  · rcases hl : env.netListen "tcp" (":" ++ env.loadConfig.Port) with _ | err
    · rcases hs : env.serve ⟨"tcp", ":" ++ env.loadConfig.Port⟩ with _ | (_ | err) <;>
        interval_cases m <;>
        simp [runFor, step, State.goto, State.write, State.start, Effect.isListen, hl, hs]
    · interval_cases m <;>
        simp [runFor, step, State.goto, State.write, State.start, Effect.isListen, hl]
  · intro h11
    have hm := h2 h11
    rcases hl : env.netListen "tcp" (":" ++ env.loadConfig.Port) with _ | err
    · rcases hs : env.serve ⟨"tcp", ":" ++ env.loadConfig.Port⟩ with _ | (_ | err) <;>
        interval_cases m <;>
        simp [runFor, step, State.goto, State.write, State.start, Effect.isListen, hl, hs]
    · interval_cases m <;>
        simp [runFor, step, State.goto, State.write, State.start, Effect.isListen, hl]

/-- C8 at a sample run: with an empty port the address of the one call is `":"`. -/
theorem listen_address_witness :
    Effect.netListen "tcp" ":" ∈ (runFor envEmptyPort 11).trace ∧
    ("tcp" = "tcp" ∧ ":" = ":" ++ envEmptyPort.loadConfig.Port ∧
      ":".data = ':' :: envEmptyPort.loadConfig.Port.data) :=
  ⟨by decide, (listen_address envEmptyPort 11).1 "tcp" ":" (by decide)⟩

/-- C9: in every run of `main`, every call of `Serve` in the effect trace has the three
registrations (bridge service, health service, reflection) before it, and in every state
that is about to call `Serve`, blocked inside `Serve` or past a `Serve` call, the bridge
service, the health service and reflection are registered on the server and a reflection
query names each of them. -/
theorem services_registered_before_serve (env : Env) (n : Nat) :
    (∀ pre e post, (runFor env n).trace = pre ++ e :: post → e.isServe = true →
      Effect.RegisterLiveKitBridgeServer { config := env.loadConfig } ∈ pre ∧
      Effect.RegisterHealthServer ∈ pre ∧
      Effect.reflectionRegister ∈ pre) ∧
    ((∃ lis, (runFor env n).loc = .l49 lis ∨ (runFor env n).loc = .serving lis ∨
        Effect.Serve lis ∈ (runFor env n).trace) →
      ∃ srv, (runFor env n).grpcServer = some srv ∧
        Service.LiveKitBridge ∈ srv.services ∧
        Service.Health ∈ srv.services ∧
        Service.Reflection ∈ srv.services ∧
        srv.reflectionLists .LiveKitBridge = true ∧
        srv.reflectionLists .Health = true ∧
        srv.reflectionLists .Reflection = true) := by
  obtain ⟨m, hm, hrun⟩ := runFor_capped env n
  rw [hrun]
  clear hrun n
  constructor
  · intro pre e post hsplit hp
    have key : ∀ a : Effect,
        (a = Effect.RegisterLiveKitBridgeServer { config := env.loadConfig } ∨
          a = Effect.RegisterHealthServer ∨ a = Effect.reflectionRegister) →
        precededBy a Effect.isServe (runFor env 15).trace = true := by
      intro a ha
      rcases hl : env.netListen "tcp" (":" ++ env.loadConfig.Port) with _ | err
      · rcases hs : env.serve ⟨"tcp", ":" ++ env.loadConfig.Port⟩ with _ | (_ | err) <;>
          rcases ha with rfl | rfl | rfl <;>
          simp [runFor, step, State.goto, State.write, State.start, precededBy,
            Effect.isServe, hl, hs]
      · rcases ha with rfl | rfl | rfl <;>
          simp [runFor, step, State.goto, State.write, State.start, precededBy,
            Effect.isServe, hl]
    exact ⟨precededBy_in_run env _ _ (key _ (Or.inl rfl)) m pre e post hsplit hp,
      precededBy_in_run env _ _ (key _ (Or.inr (Or.inl rfl))) m pre e post hsplit hp,
      precededBy_in_run env _ _ (key _ (Or.inr (Or.inr rfl))) m pre e post hsplit hp⟩
  · rcases hl : env.netListen "tcp" (":" ++ env.loadConfig.Port) with _ | err
    · rcases hs : env.serve ⟨"tcp", ":" ++ env.loadConfig.Port⟩ with _ | (_ | err) <;>
        interval_cases m <;>
        simp [runFor, step, State.goto, State.write, State.start, grpcNewServer,
          ServerOption.apply, GrpcServer.default, GrpcServer.register,
          GrpcServer.reflectionLists, hl, hs]
    · interval_cases m <;>
        simp [runFor, step, State.goto, State.write, State.start, grpcNewServer,
          ServerOption.apply, GrpcServer.default, GrpcServer.register,
          GrpcServer.reflectionLists, hl]

/-- C9 at a sample run: the port is free and `Serve` blocks; on the serving process a
reflection query names the bridge service and the health service. -/
theorem services_registered_before_serve_witness :
    (runFor envServing 14).loc = .serving ⟨"tcp", ":8080"⟩ ∧
    (runFor envServing 14).grpcServer.map
      (fun srv => srv.reflectionLists .LiveKitBridge && srv.reflectionLists .Health) =
      some true := by
  refine ⟨by decide, ?_⟩
  obtain ⟨srv, hsrv, _, _, _, hbridge, hhealth, _⟩ :=
    (services_registered_before_serve envServing 14).2
      ⟨⟨"tcp", ":8080"⟩, Or.inr (Or.inl (by decide))⟩
  rw [hsrv]
  simp [hbridge, hhealth]

/-- C10: in every run of `main` the trace holds at most one `SetServingStatus` (exactly
one from step 9 on), and every `SetServingStatus` in it is for the bridge name with the
value SERVING, so none sets NOT_SERVING; apart from the construction of the health server
(step 7) and that one write (step 9) no step changes the recorded status of any name; and
once the bridge name is SERVING it is SERVING in every later state of the run. -/
theorem health_written_once (env : Env) (n : Nat) :
    (runFor env n).trace.countP Effect.isSetServingStatus ≤ 1 ∧
    (9 ≤ n → (runFor env n).trace.countP Effect.isSetServingStatus = 1) ∧
    (∀ service status, Effect.SetServingStatus service status ∈ (runFor env n).trace →
      service = bridgeServiceName ∧ status = .SERVING) ∧
    (∀ name, n ≠ 6 → n ≠ 8 →
      (runFor env (n + 1)).healthStatus name = (runFor env n).healthStatus name) ∧
    (∀ k, (runFor env n).healthStatus bridgeServiceName = some .SERVING →
      (runFor env (n + k)).healthStatus bridgeServiceName = some .SERVING) := by
  refine ⟨?_, ?_, ?_, ?_, ?_⟩
  · obtain ⟨m, hm, hrun⟩ := runFor_capped env n
    rw [hrun]
    rcases hl : env.netListen "tcp" (":" ++ env.loadConfig.Port) with _ | err
    · rcases hs : env.serve ⟨"tcp", ":" ++ env.loadConfig.Port⟩ with _ | (_ | err) <;>
        interval_cases m <;>
        simp [runFor, step, State.goto, State.write, State.start,
          Effect.isSetServingStatus, hl, hs]
    · interval_cases m <;>
        simp [runFor, step, State.goto, State.write, State.start,
          Effect.isSetServingStatus, hl]
  · intro hn
    rw [runFor_min env n]
    have h1 : min n 15 ≤ 15 := min_le_right _ _
    have h2 : 9 ≤ min n 15 := le_min hn (by norm_num)
    generalize min n 15 = m at h1 h2
    rcases hl : env.netListen "tcp" (":" ++ env.loadConfig.Port) with _ | err
    · rcases hs : env.serve ⟨"tcp", ":" ++ env.loadConfig.Port⟩ with _ | (_ | err) <;>
        interval_cases m <;>
        simp [runFor, step, State.goto, State.write, State.start,
          Effect.isSetServingStatus, hl, hs]
    · interval_cases m <;>
        simp [runFor, step, State.goto, State.write, State.start,
          Effect.isSetServingStatus, hl]
  · obtain ⟨m, hm, hrun⟩ := runFor_capped env n
    rw [hrun]
    rcases hl : env.netListen "tcp" (":" ++ env.loadConfig.Port) with _ | err
    · rcases hs : env.serve ⟨"tcp", ":" ++ env.loadConfig.Port⟩ with _ | (_ | err) <;>
        interval_cases m <;>
        simp [runFor, step, State.goto, State.write, State.start, hl, hs]
    · interval_cases m <;>
        simp [runFor, step, State.goto, State.write, State.start, hl]
  · intro name h6 h8
    by_cases hn : n ≤ 14
    · rcases hl : env.netListen "tcp" (":" ++ env.loadConfig.Port) with _ | err
      · rcases hs : env.serve ⟨"tcp", ":" ++ env.loadConfig.Port⟩ with _ | (_ | err) <;>
          interval_cases n <;>
          simp [runFor, step, State.goto, State.write, State.start, State.healthStatus,
            hl, hs] at h6 h8 ⊢
      · interval_cases n <;>
          simp [runFor, step, State.goto, State.write, State.start, State.healthStatus,
            hl] at h6 h8 ⊢
    · rw [runFor_min env (n + 1), runFor_min env n, min_eq_right (by omega),
        min_eq_right (by omega)]
  · intro k h
    rw [healthStatus_bridge_iff] at h ⊢
    omega

/-- C10 at a sample run: on the fatal bind path the bridge name is SERVING after the
ninth step and still SERVING when the process has exited. -/
theorem health_written_once_witness :
    (runFor envPortInUse 9).healthStatus bridgeServiceName = some .SERVING ∧
    (runFor envPortInUse (9 + 3)).healthStatus bridgeServiceName = some .SERVING ∧
    (runFor envPortInUse (9 + 3)).loc = .exited 1 :=
  ⟨by decide, (health_written_once envPortInUse 9).2.2.2.2 3 (by decide), by decide⟩

end LiveKitBridge
